import Mathlib

/-!
Verification of the visit-counter web service (src/app.py).

The service exposes two Flask routes, `/ping` and `/count`, backed by a
Redis connection pool.  Process-wide mutable state consists of the cached
Redis version string (`REDIS_VERSION`, a Python `None`-or-string global)
and the remote `counter` key.  We embed that state as `State`, embed each
route handler as a pure function from the current state and the backend's
behaviour during the request (did the INFO call succeed and with which
version, did PING / INCR succeed) to a new state, an HTTP response and the
log lines emitted, and embed a whole process lifetime as a fold `run` over
a list of requests.
-/

/-- JSON values appearing in the service's response bodies. -/
inductive JVal where
  | s : String → JVal
  | b : Bool → JVal
  | n : ℚ → JVal
  | i : Nat → JVal
  | null : JVal
deriving DecidableEq

/-- An HTTP response: status code and JSON object body as an ordered
association list (Python dicts preserve insertion order). -/
structure HttpResp where
  code : Nat
  body : List (String × JVal)
deriving DecidableEq

/-- One structured log line: level, message, and the `custom_data` context
payload string. -/
structure LogLine where
  level : String
  message : String
  context : String
deriving DecidableEq

/-- Field lookup in a JSON object body. -/
def jget (k : String) : List (String × JVal) → Option JVal
  | [] => none
  | (k', v) :: rest => if k' = k then some v else jget k rest

/-- Process-wide mutable state: the `REDIS_VERSION` global (`none` embeds
Python `None`) and the remote `counter` key (0 embeds "key absent", since
Redis INCR on an absent key yields 1). -/
structure State where
  cache : Option String
  counter : Nat
deriving DecidableEq

/-- Fresh process: `REDIS_VERSION = None`, counter key unset. -/
def initState : State := { cache := none, counter := 0 }

/-- Outcome of `conn.info()` during a request: `ok ver` means the INFO
command succeeded and the reply dict maps `redis_version` to `ver` (absent
key embedded as `ok none`, covering the `.get` default); `err` means the
command raised a `RedisError`. -/
inductive FetchOutcome where
  | ok : Option String → FetchOutcome
  | err : FetchOutcome
deriving DecidableEq

/-- Outcome of a backend command (`conn.ping()` or `conn.incr`): success,
or a `RedisError` carrying the exception's message `str(e)`. -/
inductive OpOutcome where
  | ok : OpOutcome
  | err : String → OpOutcome
deriving DecidableEq

/-- Python `round(x, 2)` at the rational level: round half to even. -/
def roundHalfEven (q : ℚ) : ℤ :=
  if q - ⌊q⌋ < 1 / 2 then ⌊q⌋
  else if 1 / 2 < q - ⌊q⌋ then ⌊q⌋ + 1
  else if ⌊q⌋ % 2 = 0 then ⌊q⌋ else ⌊q⌋ + 1

/-- `round(x, 2)` from the source's `round((t1 - t0) * 1000, 2)`. -/
def pyRound2 (x : ℚ) : ℚ := (roundHalfEven (x * 100) : ℚ) / 100

/-- The f-string context payload `'\x7b"error": "<msg>"\x7d'` used by the
error logs in both routes. -/
def errCtx (m : String) : String := "\x7b\"error\": \"" ++ m ++ "\"\x7d"

/-- `get_redis()` (src/app.py:62-78): returns a connection (always
succeeds — pool checkout is lazy) and, when `REDIS_VERSION is None`,
fetches `conn.info().get('redis_version', 'unknown')` into the global,
logging at INFO on success; a `RedisError` is caught, logged as a warning,
and the global is set to `'unknown'`.  Embedded as the updated cache plus
the log lines emitted. -/
def get_redis (cache : Option String) (fetch : FetchOutcome) :
    Option String × List LogLine :=
  match cache with
  | some v => (some v, [])
  | none =>
    match fetch with
    | .ok ver =>
      let v := ver.getD "unknown"
      (some v,
        [{ level := "INFO", message := "Connected to Redis",
           context := "\x7b\"version\": \"" ++ v ++ "\"\x7d" }])
    | .err =>
      (some "unknown",
        [{ level := "WARNING", message := "Could not fetch Redis version",
           context := "\x7b\x7d" }])

/-- Result of one handled request: new process state, HTTP response, and
log lines emitted in order. -/
structure StepOut where
  state : State
  resp : HttpResp
  logs : List LogLine
deriving DecidableEq

/-- The `redis_version` response field: `jsonify` renders the global as a
JSON string, or `null` while it is Python `None`. -/
def optJ : Option String → JVal
  | none => .null
  | some v => .s v

/-- `/ping` handler (src/app.py:81-106).  `env` embeds `FLASK_ENV`
(`getenv` default `"development"`); `elapsed` is the wall-clock duration
`time.perf_counter() - start_time` in seconds; `fetch` and `probe` are the
backend's behaviour for `conn.info()` and `conn.ping()`.  `get_redis`
cannot raise (it catches `RedisError` internally); a `RedisError` from
`conn.ping()` is caught, logged, and leaves `redis_connected` at its
initial `False`.  The handler always returns HTTP 200. -/
def ping_route (env : Option String) (st : State) (fetch : FetchOutcome)
    (probe : OpOutcome) (elapsed : ℚ) : StepOut :=
  let g := get_redis st.cache fetch
  let connected : Bool := match probe with | .ok => true | .err _ => false
  let plogs : List LogLine :=
    match probe with
    | .ok => []
    | .err m => [{ level := "ERROR", message := "Redis ping failed",
                   context := errCtx m }]
  { state := { cache := g.1, counter := st.counter },
    resp :=
      { code := 200,
        body :=
          [("status", .s "ok"),
           ("environment", .s (env.getD "development")),
           ("redis_connected", .b connected),
           ("response_time_ms", .n (pyRound2 (elapsed * 1000))),
           ("version", .s "1.2.0")] },
    logs := g.2 ++ plogs }

/-- `/count` handler (src/app.py:109-139).  `get_redis` runs first and
always updates the version cache; then `conn.incr('counter')` either
atomically increments and returns the new value (HTTP 200 with the success
body reading the just-updated global) or raises a `RedisError`, which the
handler catches, logs, and converts into the fixed HTTP 503 error body —
no exception propagates to the caller. -/
def count_route (st : State) (fetch : FetchOutcome) (incr : OpOutcome) :
    StepOut :=
  let g := get_redis st.cache fetch
  match incr with
  | .ok =>
    let visits := st.counter + 1
    { state := { cache := g.1, counter := visits },
      resp :=
        { code := 200,
          body :=
            [("status", .s "ok"),
             ("visit_count", .i visits),
             ("note", .s "Try hitting refresh to see the counter increase!"),
             ("redis_version", optJ g.1)] },
      logs := g.2 ++
        [{ level := "INFO", message := "Visit recorded",
           context := "\x7b\"visit_count\": " ++ toString visits ++ "\x7d" }] }
  | .err m =>
    { state := { cache := g.1, counter := st.counter },
      resp :=
        { code := 503,
          body :=
            [("status", .s "error"),
             ("message", .s "Counter service unavailable"),
             ("action", .s "Please try again later"),
             ("severity", .s "high")] },
      logs := g.2 ++
        [{ level := "ERROR", message := "Redis operation failed",
           context := errCtx m }] }

/-- One HTTP request with the backend behaviour it observes. -/
inductive Req where
  | ping : FetchOutcome → OpOutcome → ℚ → Req
  | count : FetchOutcome → OpOutcome → Req

/-- Dispatch one request to its route handler. -/
def step (env : Option String) (st : State) : Req → StepOut
  | .ping f p t => ping_route env st f p t
  | .count f i => count_route st f i

/-- A process lifetime: handle a list of requests in sequence, threading
the process state and collecting the responses. -/
def run (env : Option String) (st : State) : List Req → State × List HttpResp
  | [] => (st, [])
  | r :: rs =>
    let o := step env st r
    let rest := run env o.state rs
    (rest.1, o.resp :: rest.2)

/-- A sequence of `/count` requests that all succeed at the INCR, with
arbitrary version-fetch behaviour per request. -/
def countOkTrace (fs : List FetchOutcome) : List Req :=
  fs.map (fun f => .count f .ok)

/-- `redis.ConnectionPool(...)` keyword arguments (src/app.py:48-56). -/
structure PoolConfig where
  host : String
  port : Nat
  max_connections : Nat
  socket_timeout : ℚ
  socket_connect_timeout : ℚ
  health_check_interval : Nat
  decode_responses : Bool
deriving DecidableEq

/-- The module-level pool, parameterised by the `REDIS_HOST` and
`REDIS_PORT` environment variables (`getenv` defaults `"redis"`, 6379). -/
def redis_pool (redisHost : Option String) (redisPort : Option Nat) :
    PoolConfig :=
  { host := redisHost.getD "redis",
    port := redisPort.getD 6379,
    max_connections := 20,
    socket_timeout := 1,
    socket_connect_timeout := 1,
    health_check_interval := 30,
    decode_responses := true }

/-- Python `round` of a nonnegative rational is nonnegative. -/
theorem pyRound2_nonneg {x : ℚ} (hx : 0 ≤ x) : 0 ≤ pyRound2 x := by
  have hf : (0 : ℤ) ≤ ⌊x * 100⌋ := Int.floor_nonneg.mpr (by positivity)
  have h1 : (0 : ℚ) ≤ (⌊x * 100⌋ : ℚ) := by exact_mod_cast hf
  have h2 : (0 : ℚ) ≤ (⌊x * 100⌋ : ℚ) + 1 := by linarith
  unfold pyRound2 roundHalfEven
  split_ifs <;> exact div_nonneg (by push_cast; linarith) (by norm_num)

/-- Projecting `counter` out of a successful `/count` step. -/
theorem count_ok_counter (st : State) (f : FetchOutcome) :
    (count_route st f .ok).state.counter = st.counter + 1 := rfl

/-- The `visit_count` field of a successful `/count` response. -/
theorem jget_visit_count_ok (st : State) (f : FetchOutcome) :
    jget "visit_count" (count_route st f .ok).resp.body =
      some (.i (st.counter + 1)) := rfl

/-- Claim C2: every `/ping` request returns HTTP 200 whatever the backend
does, and `redis_connected` is `false` exactly when the `conn.ping()`
probe raised. -/
theorem ping_always_200_connected_iff (env : Option String) (st : State)
    (fetch : FetchOutcome) (probe : OpOutcome) (elapsed : ℚ) :
    (step env st (.ping fetch probe elapsed)).resp.code = 200 ∧
    (jget "redis_connected" (step env st (.ping fetch probe elapsed)).resp.body
        = some (.b false) ↔ probe ≠ .ok) := by
  cases probe <;> simp [step, ping_route, jget]

/-- Claim C5: the `/ping` body has exactly the fields `status`,
`environment` (the `FLASK_ENV` value, default `"development"`),
`redis_connected`, `response_time_ms` (the handler's duration in
milliseconds rounded to 2 decimals, nonnegative), and `version = "1.2.0"`,
in the source's insertion order. -/
theorem ping_body_exact_fields (env : Option String) (st : State)
    (fetch : FetchOutcome) (probe : OpOutcome) (elapsed : ℚ)
    (h : 0 ≤ elapsed) :
    (step env st (.ping fetch probe elapsed)).resp.body =
      [("status", .s "ok"),
       ("environment", .s (env.getD "development")),
       ("redis_connected", .b (match probe with | .ok => true | .err _ => false)),
       ("response_time_ms", .n (pyRound2 (elapsed * 1000))),
       ("version", .s "1.2.0")] ∧
    0 ≤ pyRound2 (elapsed * 1000) :=
  ⟨rfl, pyRound2_nonneg (by positivity)⟩

/-- Witness for C5 at a concrete request. -/
theorem ping_body_exact_fields_witness :
    (step none initState (.ping .err .ok 0)).resp.body =
      [("status", .s "ok"),
       ("environment", .s "development"),
       ("redis_connected", .b true),
       ("response_time_ms", .n (pyRound2 (0 * 1000))),
       ("version", .s "1.2.0")] ∧
    0 ≤ pyRound2 ((0 : ℚ) * 1000) :=
  ping_body_exact_fields none initState .err .ok 0 le_rfl

/-- Claim C6: when INCR raises, `/count` answers HTTP 503 with exactly the
fixed error body, for every backend error message — the handler catches
the exception, so nothing propagates. -/
theorem count_failure_503_body (env : Option String) (st : State)
    (fetch : FetchOutcome) (m : String) :
    (step env st (.count fetch (.err m))).resp =
      { code := 503,
        body :=
          [("status", .s "error"),
           ("message", .s "Counter service unavailable"),
           ("action", .s "Please try again later"),
           ("severity", .s "high")] } := rfl

/-- Claim C7: a failed `/count` leaves the stored counter unchanged, and
the next successful `/count` returns exactly one more than the value held
before the failed request. -/
theorem count_failure_no_increment (env : Option String) (st : State)
    (f1 f2 : FetchOutcome) (m : String) :
    (step env st (.count f1 (.err m))).state.counter = st.counter ∧
    jget "visit_count"
        (step env (step env st (.count f1 (.err m))).state
          (.count f2 .ok)).resp.body = some (.i (st.counter + 1)) :=
  ⟨rfl, rfl⟩

/-- Claim C8: the shared pool is bounded at 20 connections and both the
connect and the operation socket timeout are the fixed positive constant 1
second, whatever `REDIS_HOST`/`REDIS_PORT` say. -/
theorem pool_bounded_and_timeouts (h : Option String) (p : Option Nat) :
    (redis_pool h p).max_connections = 20 ∧
    (redis_pool h p).socket_timeout = 1 ∧
    (redis_pool h p).socket_connect_timeout = 1 ∧
    0 < (redis_pool h p).socket_timeout ∧
    0 < (redis_pool h p).socket_connect_timeout := by
  refine ⟨rfl, rfl, rfl, ?_, ?_⟩ <;> norm_num [redis_pool]

/-- Claim C9: the `/count` error response is one fixed constant,
independent of the underlying exception message (so no fragment of the
error can reach the client), while the message does appear in the log. -/
theorem count_error_response_message_independent (env : Option String)
    (st : State) (f1 f2 : FetchOutcome) (m1 m2 : String) :
    (step env st (.count f1 (.err m1))).resp =
      (step env st (.count f2 (.err m2))).resp ∧
    (step env st (.count f1 (.err m1))).resp.body =
      [("status", .s "error"),
       ("message", .s "Counter service unavailable"),
       ("action", .s "Please try again later"),
       ("severity", .s "high")] ∧
    { level := "ERROR", message := "Redis operation failed",
      context := errCtx m1 : LogLine } ∈
      (step env st (.count f1 (.err m1))).logs := by
  refine ⟨rfl, rfl, ?_⟩
  simp [step, count_route]

/-- The `redis_version` field of a successful `/count` response is the
version cache as updated by this request's `get_redis` call. -/
theorem jget_redis_version_ok (st : State) (f : FetchOutcome) :
    jget "redis_version" (count_route st f .ok).resp.body =
      some (optJ (get_redis st.cache f).1) := rfl

/-- Claim C1: over any sequence of `/count` requests whose INCR succeeds,
the returned `visit_count` values are `prior + 1, prior + 2, ...` —
strictly increasing by exactly 1 — and from a fresh process the first two
calls return 1 and 2. -/
theorem count_monotonic_increments :
    (∀ (env : Option String) (st : State) (fs : List FetchOutcome),
      (run env st (countOkTrace fs)).2.map (fun r => jget "visit_count" r.body) =
        (List.range fs.length).map (fun i => some (JVal.i (st.counter + 1 + i)))) ∧
    (run none initState
        (countOkTrace [.ok (some "7.2.4"), .ok (some "7.2.4")])).2.map
        (fun r => jget "visit_count" r.body) = [some (.i 1), some (.i 2)] := by
  have main : ∀ (env : Option String) (fs : List FetchOutcome) (st : State),
      (run env st (countOkTrace fs)).2.map (fun r => jget "visit_count" r.body) =
        (List.range fs.length).map (fun i => some (JVal.i (st.counter + 1 + i))) := by
    intro env fs
    induction fs with
    | nil => intro st; rfl
    | cons f fs ih =>
      intro st
      simp only [countOkTrace, List.map_cons] at ih ⊢
      simp only [run, List.map_cons, List.length_cons, List.range_succ_eq_map,
        List.map_map]
      congr 1
      rw [show step env st (.count f .ok) = count_route st f .ok from rfl, ih]
      apply List.map_congr_left
      intro i _
      simp only [Function.comp_apply, count_ok_counter, Option.some.injEq,
        JVal.i.injEq]
      omega
  exact ⟨fun env st fs => main env fs st, main none _ initState⟩

/-- Claim C3 as stated is false on the code: the cache starts as Python
`None`, not the string `"unset"`, and on a fresh process a first `/count`
whose version fetch fails but whose INCR succeeds answers with
`redis_version = "unknown"` even though no successful call ever
established a fetched version. -/
theorem version_unset_counterexample :
    jget "redis_version" (step none initState (.count .err .ok)).resp.body =
      some (.s "unknown") ∧
    initState.cache ≠ some "unset" ∧
    JVal.s "unknown" ≠ JVal.s "unset" := by
  refine ⟨rfl, ?_, ?_⟩ <;> decide

/-- Claim C3 amended: the cache starts as `None`; the first request to
either endpoint (successful or not) writes it exactly once — to the
fetched version on fetch success, to `"unknown"` on fetch failure — after
which it never changes for the process lifetime, and every successful
`/count` response carries the cache value current after this request's
`get_redis` call, which is always a string by then. -/
theorem version_cache_write_once :
    initState.cache = none ∧
    (∀ f, (get_redis none f).1 =
      some (match f with | .ok ver => ver.getD "unknown" | .err => "unknown")) ∧
    (∀ (env : Option String) (st : State) (r : Req),
      st.cache.isSome → (step env st r).state.cache = st.cache) ∧
    (∀ (env : Option String) (st : State) (r : Req),
      ((step env st r).state.cache).isSome) ∧
    (∀ (env : Option String) (st : State) (f : FetchOutcome),
      jget "redis_version" (step env st (.count f .ok)).resp.body =
        some (optJ (step env st (.count f .ok)).state.cache) ∧
      ∃ v, (step env st (.count f .ok)).state.cache = some v) := by
  refine ⟨rfl, ?_, ?_, ?_, ?_⟩
  · intro f; cases f <;> rfl
  · intro env st r h
    obtain ⟨v, hv⟩ := Option.isSome_iff_exists.mp h
    cases r with
    | ping f p t => simp [step, ping_route, get_redis, hv]
    | count f i => cases i <;> simp [step, count_route, get_redis, hv]
  · intro env st r
    cases r with
    | ping f p t =>
      rcases hc : st.cache with _ | v
      · cases f <;> simp [step, ping_route, get_redis, hc]
      · simp [step, ping_route, get_redis, hc]
    | count f i =>
      rcases hc : st.cache with _ | v
      · cases f <;> cases i <;> simp [step, count_route, get_redis, hc]
      · cases i <;> simp [step, count_route, get_redis, hc]
  · intro env st f
    refine ⟨rfl, ?_⟩
    rcases hc : st.cache with _ | v
    · cases f <;> simp [step, count_route, get_redis, hc]
    · simp [step, count_route, get_redis, hc]

/-- Witness for the amended C3 at concrete states. -/
theorem version_cache_write_once_witness :
    ({ cache := some "7.0.1", counter := 5 } : State).cache.isSome ∧
    (step none { cache := some "7.0.1", counter := 5 } (.count .err .ok)).state.cache
      = some "7.0.1" :=
  ⟨rfl, version_cache_write_once.2.2.1 none { cache := some "7.0.1", counter := 5 }
    (.count .err .ok) rfl⟩

/-- Claim C4 as stated is false on the code: after a failed version fetch
the cache does not stay at its default (`None`), it is written to
`"unknown"`. -/
theorem fetch_failure_cache_counterexample :
    (get_redis none .err).1 = some "unknown" ∧
    (get_redis none .err).1 ≠ none ∧
    (get_redis none .err).1 ≠ some "unset" ∧
    initState.cache = none := by
  refine ⟨rfl, ?_, ?_, rfl⟩ <;> decide

/-- Claim C4 amended: a failed version fetch is non-fatal — it is logged
as a warning and neither `/ping` nor `/count` fails because of it — but it
sets the cache to `"unknown"` instead of leaving it at its default. -/
theorem fetch_failure_nonfatal (env : Option String) (st : State) (t : ℚ)
    (h : st.cache = none) :
    get_redis st.cache .err =
      (some "unknown",
        [{ level := "WARNING", message := "Could not fetch Redis version",
           context := "\x7b\x7d" }]) ∧
    (step env st (.ping .err .ok t)).resp.code = 200 ∧
    jget "redis_connected" (step env st (.ping .err .ok t)).resp.body =
      some (.b true) ∧
    (step env st (.count .err .ok)).resp.code = 200 ∧
    jget "status" (step env st (.count .err .ok)).resp.body = some (.s "ok") := by
  rw [h]
  exact ⟨rfl, rfl, rfl, rfl, rfl⟩

/-- Witness for the amended C4 on a fresh process. -/
theorem fetch_failure_nonfatal_witness :
    initState.cache = none ∧
    (step none initState (.count .err .ok)).resp.code = 200 :=
  ⟨rfl, (fetch_failure_nonfatal none initState 0 rfl).2.2.2.1⟩

/-- Claim C10: once the cache holds `"unknown"`, `get_redis` never
re-attempts the fetch (its result and silence are independent of what the
backend would answer), the cache stays `"unknown"` across any further
trace, every later successful `/count` reports `redis_version "unknown"`,
and no response in any further trace carries a different version. -/
theorem version_unknown_permanent :
    (∀ f, get_redis (some "unknown") f = (some "unknown", [])) ∧
    (∀ (env : Option String) (st : State) (f : FetchOutcome),
      st.cache = some "unknown" →
        jget "redis_version" (step env st (.count f .ok)).resp.body =
          some (.s "unknown")) ∧
    (∀ (env : Option String) (st : State) (rs : List Req),
      st.cache = some "unknown" →
        (run env st rs).1.cache = some "unknown" ∧
        ∀ resp ∈ (run env st rs).2,
          jget "redis_version" resp.body = none ∨
          jget "redis_version" resp.body = some (.s "unknown")) := by
  have hok : ∀ (env : Option String) (st : State) (f : FetchOutcome),
      st.cache = some "unknown" →
        jget "redis_version" (step env st (.count f .ok)).resp.body =
          some (.s "unknown") := by
    intro env st f h
    show jget "redis_version" (count_route st f .ok).resp.body = _
    rw [jget_redis_version_ok, h]
    rfl
  refine ⟨fun _ => rfl, hok, ?_⟩
  intro env st rs
  induction rs generalizing st with
  | nil => intro h; exact ⟨h, by simp [run]⟩
  | cons r rs ih =>
    intro h
    have hstate : (step env st r).state.cache = some "unknown" := by
      cases r with
      | ping f p t => show (get_redis st.cache f).1 = _; rw [h]; rfl
      | count f i =>
        cases i with
        | ok => show (get_redis st.cache f).1 = _; rw [h]; rfl
        | err m => show (get_redis st.cache f).1 = _; rw [h]; rfl
    obtain ⟨ih1, ih2⟩ := ih (step env st r).state hstate
    refine ⟨ih1, ?_⟩
    simp only [run]
    intro resp hm
    rcases List.mem_cons.mp hm with hhead | htail
    · subst hhead
      cases r with
      | ping f p t => left; rfl
      | count f i =>
        cases i with
        | ok => right; exact hok env st f h
        | err m => left; rfl
    · exact ih2 resp htail

/-- Witness for C10: with the cache already `"unknown"`, a later request
whose fetch would now succeed still leaves it `"unknown"`. -/
theorem version_unknown_permanent_witness :
    ({ cache := some "unknown", counter := 0 } : State).cache = some "unknown" ∧
    (run none { cache := some "unknown", counter := 0 }
        [Req.count (.ok (some "7.2.4")) .ok]).1.cache = some "unknown" :=
  ⟨rfl, (version_unknown_permanent.2.2 none { cache := some "unknown", counter := 0 }
    [Req.count (.ok (some "7.2.4")) .ok] rfl).1⟩
